import Mathlib

/-!
Shallow embedding of the ingestion lifecycle manager of the ingestor-sdk
repository, translated from
`src/Scheduler-sdk(simulated)/GlobalManager/GlobalIngestionLifecycleManager.ts`
(the `GlobalIngestionLifecycleManager` class, the `InMemoryDatabaseService`
store, and the `IngestionOrchestrator.executeTask` pipeline) and from
`src/Ingestor/src/functions/Crawler/processWebhookRequest.ts`.

Modelling conventions:
- JavaScript `undefined` on a string-valued field is `Option.none`; a present
  string is `some s`.  JavaScript truthiness of a string treats both
  `undefined` and the empty string as falsy, captured by `jsTruthy`.
- Timestamps (`Date`) are integers (milliseconds).
- The two `Map`s of `InMemoryDatabaseService` are association lists with
  JavaScript-`Map` semantics: `set` replaces in place or appends, iteration
  is in insertion order.
- External library calls (cron-parser `prev`, `DataSourceApiUtils`
  register/deregister HTTP calls, `crypto` HMAC, `uuid`, URL parsing and the
  data-source/transformer/destination plugins) are parameters of the model:
  the embedded functions are parametrised over the values those calls return.
- `Partial<T>` patches applied via `Object.assign` are modelled at each call
  site by the update function for that call site's literal key set.
-/

namespace IngestorSdk

/-- Helper for `jsSplit`: split a character list at every separator. -/
def splitOnCharAux (sep : Char) : List Char → List Char → List String
  | [], acc => [String.mk acc.reverse]
  | c :: rest, acc =>
      if c = sep then String.mk acc.reverse :: splitOnCharAux sep rest []
      else splitOnCharAux sep rest (c :: acc)

/-- JavaScript `s.split(sep)` for a single-character separator. -/
def jsSplit (s : String) (sep : Char) : List String :=
  splitOnCharAux sep s.toList []

/-- JavaScript truthiness of an optional string: `undefined` and `""` are falsy. -/
def jsTruthy : Option String → Bool
  | none => false
  | some s => s ≠ ""

/-- JavaScript `a || b` on optional strings. -/
def jsOr (a b : Option String) : Option String :=
  if jsTruthy a then a else b

/-- JavaScript `a || d` where `a` is an optional string and `d` a string default. -/
def jsOrD (a : Option String) (d : String) : String :=
  match a with
  | some s => if s ≠ "" then s else d
  | none => d

/-- JavaScript `s || d` for plain strings (empty string is falsy). -/
def jsOrSD (s d : String) : String :=
  if s ≠ "" then s else d

/-- JavaScript `a || undefined` on an optional string (maps `""` to `undefined`). -/
def jsOrNone (a : Option String) : Option String :=
  if jsTruthy a then a else none

/-- The optional `data` payload carried by a `GSStatus`.  Only the keys the
manager reads back are modelled (cursor tokens and `itemsProcessed`); `errData`
stands for the opaque error payload attached on failure paths. -/
structure GSData where
  itemsProcessed : Option Nat := none
  startPageToken : Option String := none
  nextPageToken : Option String := none
  otherCrawlerSpecificTokens : Option String := none
  errData : Option String := none
  deriving Repr, DecidableEq, Inhabited

/-- `GSStatus` from `@godspeedsystems/core`: success flag, HTTP-style code,
message, optional data. -/
structure GSStatus where
  success : Bool
  code : Nat
  message : String
  data : Option GSData := none
  deriving Repr, DecidableEq, Inhabited

/-- The keys of `task.source.config` that the manager inspects
(`getSourceIdentifier`); the config is an open map in the source. -/
structure SourceConfig where
  repoUrl : Option String := none
  folderId : Option String := none
  url : Option String := none
  startUrl : Option String := none
  meetingId : Option String := none
  chatId : Option String := none
  deriving Repr, DecidableEq, Inhabited

/-- `WebhookTrigger` fields (`interfaces.ts`): `endpointId`, `callbackurl`,
optional `credentials`, and `externalWebhookId` / `secret` populated after
registration. -/
structure WebhookTrigger where
  endpointId : String := ""
  callbackurl : String := ""
  credentials : Option String := none
  externalWebhookId : Option String := none
  secret : Option String := none
  deriving Repr, DecidableEq, Inhabited

/-- The tagged trigger variant: `trigger.type` is one of `manual`, `cron`,
`webhook`. -/
inductive IngestionTrigger where
  | manual
  | cron (expression : String)
  | webhook (w : WebhookTrigger)
  deriving Repr, DecidableEq, Inhabited

/-- Reading a trigger as a `WebhookTrigger` (the `as WebhookTrigger` casts in
the source): non-webhook triggers expose only undefined fields. -/
def asWebhookTrigger : IngestionTrigger → WebhookTrigger
  | .webhook w => w
  | _ => {}

/-- `IngestionTaskStatus` enum. -/
inductive IngestionTaskStatus where
  | scheduled
  | running
  | completed
  | failed
  deriving Repr, DecidableEq, Inhabited

/-- `task.source`: plugin type plus open config map. -/
structure SourceRef where
  pluginType : String
  config : SourceConfig := {}
  deriving Repr, DecidableEq, Inhabited

/-- `IngestionTaskDefinition`.  `id = ""` models an absent id (both are falsy
in `taskDefinition.id || uuidv4()`).  Besides the declared interface fields the
structure carries the keys that `registerWebhook` spreads onto the
task via `updateTask(taskId, { trigger, ...newWebhookEntry })`:
`sourceIdentifier`, `endpointId`, `secret`, `externalWebhookId`,
`registeredTasks`, `webhookFlag` (and the three cursor tokens, which
`registerWebhook` also sets directly on the task). -/
structure IngestionTaskDefinition where
  id : String := ""
  name : String := ""
  enabled : Bool := true
  source : SourceRef
  destination : Option String := none
  trigger : IngestionTrigger
  currentStatus : Option IngestionTaskStatus := none
  lastRun : Option Int := none
  lastRunStatus : Option GSStatus := none
  startPageToken : Option String := none
  nextPageToken : Option String := none
  otherCrawlerSpecificTokens : Option String := none
  sourceIdentifier : Option String := none
  endpointId : Option String := none
  secret : Option String := none
  externalWebhookId : Option String := none
  registeredTasks : Option (List String) := none
  webhookFlag : Option Bool := none
  deriving Repr, DecidableEq, Inhabited

/-- `WebhookRegistryEntry` (`interfaces.ts`). -/
structure WebhookRegistryEntry where
  sourceIdentifier : String
  endpointId : String
  secret : String
  externalWebhookId : String
  registeredTasks : List String
  webhookFlag : Bool := true
  startPageToken : Option String := none
  nextPageToken : Option String := none
  otherCrawlerSpecificTokens : Option String := none
  deriving Repr, DecidableEq, Inhabited

/-- Association-list lookup (JavaScript `Map.get`). -/
def mapGet {α : Type} : List (String × α) → String → Option α
  | [], _ => none
  | (k, v) :: rest, key => if k = key then some v else mapGet rest key

/-- Association-list insert with JavaScript `Map.set` semantics: replace in
place if the key exists, append otherwise (preserving insertion order). -/
def mapSet {α : Type} : List (String × α) → String → α → List (String × α)
  | [], key, v => [(key, v)]
  | (k, w) :: rest, key, v =>
      if k = key then (k, v) :: rest else (k, w) :: mapSet rest key v

/-- Association-list delete (JavaScript `Map.delete`). -/
def mapDel {α : Type} : List (String × α) → String → List (String × α)
  | [], _ => []
  | (k, v) :: rest, key => if k = key then rest else (k, v) :: mapDel rest key

/-- The state owned by `InMemoryDatabaseService` (the two maps) together with
the manager's registered source-plugin types (`registeredPlugins.source` keys,
which is all `runOrchestrator` consults of the plugin registry). -/
structure ManagerState where
  tasks : List (String × IngestionTaskDefinition) := []
  webhookRegistrations : List (String × WebhookRegistryEntry) := []
  registeredSources : List String := []
  deriving Repr, DecidableEq, Inhabited

/-- `InMemoryDatabaseService.getTask`. -/
def getTaskS (st : ManagerState) (taskId : String) : Option IngestionTaskDefinition :=
  mapGet st.tasks taskId

/-- `InMemoryDatabaseService.saveTask`: unconditional `Map.set` keyed by
`task.id`; there is no conflict check. -/
def saveTaskS (st : ManagerState) (task : IngestionTaskDefinition) : ManagerState :=
  { st with tasks := mapSet st.tasks task.id task }

/-- `InMemoryDatabaseService.updateTask`: `Object.assign` onto the stored task
when present, warn-and-skip otherwise.  `f` is the assignment of the call
site's literal patch. -/
def updateTaskS (st : ManagerState) (taskId : String)
    (f : IngestionTaskDefinition → IngestionTaskDefinition) : ManagerState :=
  match mapGet st.tasks taskId with
  | none => st
  | some t => { st with tasks := mapSet st.tasks taskId (f t) }

/-- `InMemoryDatabaseService.deleteTask`. -/
def deleteTaskS (st : ManagerState) (taskId : String) : ManagerState :=
  { st with tasks := mapDel st.tasks taskId }

/-- `InMemoryDatabaseService.listAllTasks`: values in insertion order. -/
def listAllTasksS (st : ManagerState) : List IngestionTaskDefinition :=
  st.tasks.map (·.2)

/-- `InMemoryDatabaseService.getWebhookRegistration`. -/
def getWebhookRegistrationS (st : ManagerState) (sourceIdentifier : String) :
    Option WebhookRegistryEntry :=
  mapGet st.webhookRegistrations sourceIdentifier

/-- `InMemoryDatabaseService.saveWebhookRegistration` (keyed by
`entry.sourceIdentifier`). -/
def saveWebhookRegistrationS (st : ManagerState) (entry : WebhookRegistryEntry) :
    ManagerState :=
  { st with webhookRegistrations := mapSet st.webhookRegistrations entry.sourceIdentifier entry }

/-- `InMemoryDatabaseService.updateWebhookRegistration`: `Object.assign` onto
the stored entry when present, warn-and-skip otherwise. -/
def updateWebhookRegistrationS (st : ManagerState) (sourceIdentifier : String)
    (f : WebhookRegistryEntry → WebhookRegistryEntry) : ManagerState :=
  match mapGet st.webhookRegistrations sourceIdentifier with
  | none => st
  | some e =>
      { st with webhookRegistrations := mapSet st.webhookRegistrations sourceIdentifier (f e) }

/-- `InMemoryDatabaseService.deleteWebhookRegistration`. -/
def deleteWebhookRegistrationS (st : ManagerState) (sourceIdentifier : String) :
    ManagerState :=
  { st with webhookRegistrations := mapDel st.webhookRegistrations sourceIdentifier }

/-- `GlobalIngestionLifecycleManager.getSourceIdentifier` (lines 665-679):
a case switch on the plugin type; unknown types yield `undefined`. -/
def getSourceIdentifier (pluginType : String) (sourceConfig : SourceConfig) :
    Option String :=
  if pluginType = "git-crawler" then sourceConfig.repoUrl
  else if pluginType = "googledrive-crawler" then sourceConfig.folderId
  else if pluginType = "teams-chat-crawler" then jsOr sourceConfig.meetingId sourceConfig.chatId
  else if pluginType = "http-crawler" then sourceConfig.url
  else none

/-- Result of the external `DataSourceApiUtils.registerWebhook` HTTP call
(provider registration), an input parameter of the model. -/
structure ExtRegResult where
  success : Bool
  externalId : Option String := none
  startpageToken : Option String := none
  nextPageToken : Option String := none
  otherCrawlerSpecificTokens : Option String := none
  deriving Repr, DecidableEq, Inhabited

/-- Result of the external `DataSourceApiUtils.deregisterWebhook` HTTP call,
an input parameter of the model. -/
structure DeregResult where
  success : Bool
  message : Option String := none
  deriving Repr, DecidableEq, Inhabited

/-- The `Object.assign` effect of
`updateTask(taskId, { trigger: trigger, ...newWebhookEntry })`
(line 790): the trigger plus every key of the new registry entry is written
onto the stored task. -/
def applyEntrySpread (t : IngestionTaskDefinition) (w : WebhookTrigger)
    (e : WebhookRegistryEntry) : IngestionTaskDefinition :=
  { t with
    trigger := .webhook w
    sourceIdentifier := some e.sourceIdentifier
    endpointId := some e.endpointId
    secret := some e.secret
    externalWebhookId := some e.externalWebhookId
    registeredTasks := some e.registeredTasks
    webhookFlag := some e.webhookFlag
    startPageToken := e.startPageToken
    nextPageToken := e.nextPageToken
    otherCrawlerSpecificTokens := e.otherCrawlerSpecificTokens }

/-- `GlobalIngestionLifecycleManager.registerWebhook` (lines 693-798).
`freshSecret` stands for `crypto.randomBytes(20).toString("hex")`, `extReg`
for the provider registration call's result.  Thrown errors are the
`catch` clause's 500 status.  The resource id passed to the provider
(`extractRepoNameFromUrl` for git) only feeds the external call and is not
modelled. -/
def registerWebhook (freshSecret : String) (extReg : ExtRegResult)
    (st : ManagerState) (td : IngestionTaskDefinition) : GSStatus × ManagerState :=
  let trigger := asWebhookTrigger td.trigger
  let pluginType := td.source.pluginType
  let taskId := td.id
  let sid? := getSourceIdentifier pluginType td.source.config
  if jsTruthy sid? = false then
    (⟨false, 400, "Webhook registration not supported or source identifier missing.", none⟩, st)
  else
    let sid := sid?.getD ""
    match getWebhookRegistrationS st sid with
    | some existingEntry =>
        let st :=
          if existingEntry.registeredTasks.contains taskId then st
          else
            updateWebhookRegistrationS st sid (fun e =>
              { e with registeredTasks := existingEntry.registeredTasks ++ [taskId]
                       webhookFlag := true })
        let newTrigger := { trigger with
          externalWebhookId := some existingEntry.externalWebhookId
          secret := some existingEntry.secret }
        let st := updateTaskS st taskId (fun t => { t with trigger := .webhook newTrigger })
        (⟨true, 200, "Task associated with existing webhook.", none⟩, st)
    | none =>
        let secret := freshSecret
        if pluginType = "git-crawler" ∨ pluginType = "googledrive-crawler" then
          if jsTruthy trigger.credentials = false then
            (⟨false, 500, "Failed to register webhook: registration requires credentials in trigger.", none⟩, st)
          else if (extReg.success && jsTruthy extReg.externalId) = false then
            (⟨false, 500, "Failed to register webhook: external webhook registration failed.", none⟩, st)
          else
            let externalWebhookId := extReg.externalId.getD ""
            let newEntry : WebhookRegistryEntry :=
              { sourceIdentifier := sid
                endpointId := trigger.endpointId
                secret := secret
                externalWebhookId := externalWebhookId
                registeredTasks := [taskId]
                webhookFlag := true
                startPageToken := jsOrNone extReg.startpageToken
                nextPageToken := jsOrNone extReg.nextPageToken
                otherCrawlerSpecificTokens := jsOrNone extReg.otherCrawlerSpecificTokens }
            let st := saveWebhookRegistrationS st newEntry
            let newTrigger := { trigger with
              externalWebhookId := some externalWebhookId
              secret := some secret }
            let st := updateTaskS st taskId (fun t => applyEntrySpread t newTrigger newEntry)
            (⟨true, 200, "Webhook registered successfully.", none⟩, st)
        else
          (⟨false, 400, "Unsupported webhook plugin type for external registration.", none⟩, st)

/-- `GlobalIngestionLifecycleManager.deregisterWebhook` (lines 800-875).
`deregExt` is the provider deregistration call's result.  Note the task id is
removed from `registeredTasks` and persisted *before* the external call; the
failure paths return the `catch` clause's 500 status without restoring it. -/
def deregisterWebhook (deregExt : DeregResult) (st : ManagerState)
    (taskId : String) : GSStatus × ManagerState :=
  match getTaskS st taskId with
  | none => (⟨false, 404, "Task not found or is not a webhook task.", none⟩, st)
  | some task =>
      match task.trigger with
      | .webhook w =>
          let pluginType := task.source.pluginType
          let sid? := getSourceIdentifier pluginType task.source.config
          if jsTruthy sid? = false then
            (⟨false, 400, "Webhook deregistration not supported or source identifier missing.", none⟩, st)
          else
            let sid := sid?.getD ""
            match getWebhookRegistrationS st sid with
            | none => (⟨true, 200, "Webhook already deregistered.", none⟩, st)
            | some webhookEntry =>
                let updatedRegisteredTasks := webhookEntry.registeredTasks.filter (· ≠ taskId)
                let st := updateWebhookRegistrationS st sid
                  (fun e => { e with registeredTasks := updatedRegisteredTasks })
                if updatedRegisteredTasks.length = 0 then
                  if webhookEntry.externalWebhookId = "" then
                    (⟨false, 500, "Cannot deregister webhook: external ID missing.", none⟩, st)
                  else if pluginType = "git-crawler" ∨ pluginType = "googledrive-crawler" then
                    if jsTruthy w.credentials = false then
                      (⟨false, 500, "Failed to deregister webhook: deregistration requires credentials in trigger.", none⟩, st)
                    else if deregExt.success = false then
                      (⟨false, 500, "Failed to deregister webhook.", none⟩, st)
                    else
                      (⟨true, 200, "Webhook deregistered successfully.", none⟩,
                       deleteWebhookRegistrationS st sid)
                  else
                    (⟨false, 400, "Unsupported webhook plugin type for external deregistration.", none⟩, st)
                else
                  (⟨true, 200, "Task removed, but other tasks are still using this webhook.", none⟩, st)
      | _ => (⟨false, 404, "Task not found or is not a webhook task.", none⟩, st)

/-- `GlobalIngestionLifecycleManager.scheduleTask` (lines 220-255).
`freshId` stands for `uuidv4()`, `freshSecret` and `extReg` feed the webhook
registration performed for enabled webhook-triggered tasks. -/
def scheduleTask (freshId freshSecret : String) (extReg : ExtRegResult)
    (st : ManagerState) (taskDefinition : IngestionTaskDefinition) :
    GSStatus × ManagerState :=
  let taskId := if taskDefinition.id ≠ "" then taskDefinition.id else freshId
  if (getTaskS st taskId).isSome then
    (⟨false, 409, "Task already exists.", none⟩, st)
  else
    let taskToSave : IngestionTaskDefinition :=
      { taskDefinition with
        id := taskId
        currentStatus := some .scheduled
        lastRun := none
        lastRunStatus := none }
    let st := saveTaskS st taskToSave
    if taskToSave.enabled then
      match taskToSave.trigger with
      | .webhook _ =>
          let rs := registerWebhook freshSecret extReg st taskToSave
          if rs.1.success = false then
            (rs.1, updateTaskS rs.2 taskToSave.id (fun t =>
              { t with currentStatus := some .failed, lastRunStatus := some rs.1 }))
          else
            (⟨true, 200, "Task scheduled successfully.", none⟩, rs.2)
      | _ => (⟨true, 200, "Task scheduled successfully.", none⟩, st)
    else
      (⟨true, 200, "Task scheduled successfully.", none⟩, st)

/-- `GlobalIngestionLifecycleManager.deleteTask` (lines 317-335).  `res` is
only assigned inside the webhook branch; for any other trigger the
`if (!res?.success)` guard sees `undefined` and aborts with 403. -/
def deleteTask (deregExt : DeregResult) (st : ManagerState) (taskId : String) :
    GSStatus × ManagerState :=
  match getTaskS st taskId with
  | none => (⟨false, 404, "Task not found.", none⟩, st)
  | some task =>
      let resSt : Option GSStatus × ManagerState :=
        match task.trigger with
        | .webhook _ =>
            let r := deregisterWebhook deregExt st taskId
            (some r.1, r.2)
        | _ => (none, st)
      let resOk : Bool :=
        match resSt.1 with
        | some r => r.success
        | none => false
      if resOk = false then
        (⟨false, 403, "error in deleting task", none⟩, resSt.2)
      else
        (⟨true, 200, "Task deleted successfully.", none⟩, deleteTaskS resSt.2 taskId)

/-- `GlobalIngestionLifecycleManager.runOrchestrator` (lines 573-654).
`orchResult` is the `GSStatus` produced by `orchestrator.executeTask` (the
pipeline over the externally supplied plugins), `wall` the wall-clock value of
`new Date()` taken when the run finishes.  After recording the run outcome the
cursor write-back (lines 618-652) fires whenever the result data carries any
of the three token keys, creating a missing registry entry regardless of the
task's trigger type. -/
def runOrchestrator (orchResult : GSStatus) (wall : Int) (st : ManagerState)
    (taskDefinition : IngestionTaskDefinition) : GSStatus × ManagerState :=
  let st := updateTaskS st taskDefinition.id (fun t => { t with currentStatus := some .running })
  if (st.registeredSources.contains taskDefinition.source.pluginType) = false then
    let status : GSStatus := ⟨false, 500, "Orchestrator failed: source plugin not found.", none⟩
    (status,
     updateTaskS st taskDefinition.id (fun t =>
       { t with currentStatus := some .failed, lastRunStatus := some status }))
  else
    let finalStatus := orchResult
    let st :=
      if finalStatus.success then
        updateTaskS st taskDefinition.id (fun t =>
          { t with currentStatus := some .completed, lastRun := some wall,
                   lastRunStatus := some finalStatus })
      else
        updateTaskS st taskDefinition.id (fun t =>
          { t with currentStatus := some .failed, lastRun := some wall,
                   lastRunStatus := some finalStatus })
    let sid? := getSourceIdentifier taskDefinition.source.pluginType taskDefinition.source.config
    match sid?, finalStatus.data with
    | some sid, some d =>
        if jsTruthy sid? then
          let hasUpdates := d.startPageToken.isSome || d.nextPageToken.isSome ||
            d.otherCrawlerSpecificTokens.isSome
          if hasUpdates then
            let w := asWebhookTrigger taskDefinition.trigger
            let st :=
              match getWebhookRegistrationS st sid with
              | some _ => st
              | none =>
                  saveWebhookRegistrationS st
                    { sourceIdentifier := sid
                      endpointId := jsOrSD w.endpointId "unknown"
                      secret := jsOrD w.secret "unknown"
                      externalWebhookId := jsOrD w.externalWebhookId "unknown"
                      registeredTasks := [taskDefinition.id]
                      webhookFlag := true }
            let st := updateWebhookRegistrationS st sid (fun e =>
              { e with
                startPageToken := if d.startPageToken.isSome then d.startPageToken else e.startPageToken
                nextPageToken := if d.nextPageToken.isSome then d.nextPageToken else e.nextPageToken
                otherCrawlerSpecificTokens :=
                  if d.otherCrawlerSpecificTokens.isSome then d.otherCrawlerSpecificTokens
                  else e.otherCrawlerSpecificTokens })
            (finalStatus, st)
          else (finalStatus, st)
        else (finalStatus, st)
    | _, _ => (finalStatus, st)

/-- The webhook change classification. -/
inductive ChangeType where
  | upsert
  | del
  | unknown
  deriving Repr, DecidableEq, Inhabited

/-- The value bound to `webhookPayload` / `payload` slots: the literal empty
string used by the cron path, a parsed git JSON body, or the synthesized map
of Drive headers. -/
inductive WebhookPayloadVal where
  | str (s : String)
  | gitJson (raw : String)
  | gdriveHeaders (channelResourceId resourceState channelId messageNumber resourceUri : Option String)
  deriving Repr, DecidableEq, Inhabited

/-- The `initialPayload` object handed to `runOrchestrator`; absent keys are
`none`. -/
structure Payload where
  taskDefinition : Option IngestionTaskDefinition := none
  webhookPayload : Option WebhookPayloadVal := none
  externalResourceId : Option String := none
  changeType : Option ChangeType := none
  startPageToken : Option String := none
  nextPageToken : Option String := none
  otherCrawlerSpecificTokens : Option String := none
  deriving Repr, DecidableEq, Inhabited

/-- The due test of `triggerAllEnabledCronTasks` (lines 524-525):
`previousRunTime > now - 65s`, `previousRunTime <= now`, and `lastRun` unset
or older than `previousRunTime`. -/
def cronJobDue (now previousRunTime : Int) (lastRun : Option Int) : Bool :=
  decide (previousRunTime > now - 65 * 1000) && decide (previousRunTime ≤ now) &&
    (match lastRun with
     | none => true
     | some lr => decide (lr < previousRunTime))

/-- The loop body of `triggerAllEnabledCronTasks` (lines 506-558) over the
snapshot of all tasks.  `prev` models `CronExpressionParser.parse(expr,
now).prev()` (`none` = the parse throws), `orchOf` gives each task's
orchestrator-pipeline result, `wall` the run-completion wall clock.  Returns
the final state, the orchestrator invocations `(taskId, initialPayload)` in
order, the per-task recorded results, and `tasksDueCount`.  Note line 543
rebuilds `initialPayload` as `{taskDefinition, webhookPayload: ""}`,
discarding the token enrichment assembled at lines 530-542. -/
def cronLoop (prev : String → Int → Option Int) (orchOf : String → GSStatus)
    (wall now : Int) :
    List IngestionTaskDefinition → ManagerState →
    ManagerState × List (String × Payload) × List (String × GSStatus) × Nat
  | [], st => (st, [], [], 0)
  | task :: rest, st =>
      match task.trigger, task.enabled with
      | .cron expression, true =>
          (match prev expression now with
           | none =>
               let r := cronLoop prev orchOf wall now rest st
               (r.1, r.2.1, (task.id, ⟨false, 500, "Cron expression parse error.", none⟩) :: r.2.2.1, r.2.2.2)
           | some previousRunTime =>
               if cronJobDue now previousRunTime task.lastRun then
                 let enrichment : Payload :=
                   match getSourceIdentifier task.source.pluginType task.source.config with
                   | some sid =>
                       if jsTruthy (some sid) then
                         match getWebhookRegistrationS st sid with
                         | some webhookEntry =>
                             { startPageToken := webhookEntry.startPageToken
                               nextPageToken := webhookEntry.nextPageToken
                               otherCrawlerSpecificTokens := webhookEntry.otherCrawlerSpecificTokens }
                         | none => {}
                       else {}
                   | none => {}
                 let _ := enrichment
                 let initialPayload : Payload :=
                   { taskDefinition := some task, webhookPayload := some (.str "") }
                 let run := runOrchestrator (orchOf task.id) wall st task
                 let r := cronLoop prev orchOf wall now rest run.2
                 (r.1, (task.id, initialPayload) :: r.2.1,
                  (task.id, run.1) :: r.2.2.1, r.2.2.2 + 1)
               else
                 cronLoop prev orchOf wall now rest st)
      | _, _ => cronLoop prev orchOf wall now rest st

/-- `GlobalIngestionLifecycleManager.triggerAllEnabledCronTasks`
(lines 497-571).  Returns the overall status, the final state, and the list
of orchestrator invocations performed. -/
def triggerAllEnabledCronTasks (prev : String → Int → Option Int)
    (orchOf : String → GSStatus) (wall now : Int) (st : ManagerState) :
    GSStatus × ManagerState × List (String × Payload) :=
  let r := cronLoop prev orchOf wall now (listAllTasksS st) st
  let results := r.2.2.1
  let tasksDueCount := r.2.2.2
  if tasksDueCount = 0 then
    (⟨true, 200, "No enabled cron tasks were due.", none⟩, r.1, r.2.1)
  else
    let successful := (results.filter (fun p => p.2.success)).length
    let failed := results.length - successful
    if failed > 0 then
      (⟨false, 500, "Cron triggered tasks with failures.", none⟩, r.1, r.2.1)
    else
      (⟨true, 200, "Successfully triggered cron tasks.", none⟩, r.1, r.2.1)

/-- The request headers read by the webhook handlers
(`processWebhookRequest.ts`); absent headers are `none`. -/
structure Headers where
  xHubSignature256 : Option String := none
  xHubSignature : Option String := none
  xGithubEvent : Option String := none
  xGoogChannelId : Option String := none
  xGoogResourceUri : Option String := none
  xGoogResourceState : Option String := none
  xGoogResourceId : Option String := none
  xGoogMessageNumber : Option String := none
  deriving Repr, DecidableEq, Inhabited

/-- The raw webhook request body.  `raw` is the body string handed to the
HMAC; `typeOk` models the `typeof` gate of `processWebhookRequest`;
`parseOk`, `repoFullName` and `deleted` model what `JSON.parse(body)` yields
(`payload.repository?.full_name` and the truthiness of `payload.deleted`). -/
structure BodyVal where
  typeOk : Bool := true
  raw : String := ""
  parseOk : Bool := true
  repoFullName : Option String := none
  deleted : Bool := false
  deriving Repr, DecidableEq, Inhabited

/-- `WebhookResult`, the internal handler result
(`processWebhookRequest.ts` lines 8-15). -/
structure WebhookResult where
  success : Bool
  externalResourceId : Option String := none
  rawPayload : Option WebhookPayloadVal := none
  changeType : Option ChangeType := none
  error : Option String := none
  signatureValidated : Bool := false
  deriving Repr, DecidableEq, Inhabited

/-- `ProcessedWebhookResult` (`interfaces.ts`). -/
structure ProcessedWebhookResult where
  isValid : Bool
  payload : Option WebhookPayloadVal := none
  externalResourceId : Option String := none
  changeType : Option ChangeType := none
  error : Option String := none
  deriving Repr, DecidableEq, Inhabited

/-- `handleGitWebhook` (`processWebhookRequest.ts` lines 21-81).  `hmac`
models `crypto.createHmac("sha256", secret).update(body).digest("hex")`.
The signature header is split at every `=`; only the first two segments are
destructured into `algorithm` and `hash`. -/
def handleGitWebhook (hmac : String → String → String) (headers : Headers)
    (body : BodyVal) (secret : Option String) : WebhookResult :=
  if body.parseOk = false then
    { success := false, error := some "Invalid JSON payload.", signatureValidated := false }
  else
    let validation : Option WebhookResult × Bool :=
      if jsTruthy secret then
        let signature := jsOr headers.xHubSignature256 headers.xHubSignature
        if jsTruthy signature = false then
          (none, false)
        else
          let parts := jsSplit (signature.getD "") '='
          let algorithm := parts.headD ""
          let hash := parts[1]?
          if algorithm ≠ "sha256" then
            (some { success := false, error := some "Unsupported signature algorithm.",
                    signatureValidated := false }, false)
          else
            let calculatedHash := hmac (secret.getD "") body.raw
            if hash ≠ some calculatedHash then
              (some { success := false, error := some "Invalid webhook signature.",
                      signatureValidated := false }, false)
            else
              (none, true)
      else (none, false)
    match validation.1 with
    | some earlyReturn => earlyReturn
    | none =>
        let signatureValidated := validation.2
        let changeType : ChangeType :=
          if headers.xGithubEvent = some "push" then
            if body.deleted then .del else .upsert
          else if headers.xGithubEvent = some "pull_request" then .upsert
          else .unknown
        if jsTruthy body.repoFullName = false then
          { success := false
            error := some "Could not extract externalResourceId (repository full name)."
            signatureValidated := signatureValidated }
        else
          { success := true
            externalResourceId := some ("https://github.com/" ++ body.repoFullName.getD "")
            rawPayload := some (.gitJson body.raw)
            changeType := some changeType
            signatureValidated := signatureValidated }

/-- `handleGDriveWebhook` (`processWebhookRequest.ts` lines 87-151).
`parseUri` models `new URL(uri)` plus taking the last path segment (`none` =
the URL constructor throws). -/
def handleGDriveWebhook (parseUri : String → Option String) (headers : Headers)
    (expectedToken : Option String) : WebhookResult :=
  let tokenCheckFails :=
    jsTruthy expectedToken &&
      !(jsTruthy headers.xGoogChannelId && decide (headers.xGoogChannelId = expectedToken))
  if tokenCheckFails then
    { success := false, error := some "Invalid channel ID or token mismatch.",
      signatureValidated := false }
  else
    let signatureValidated := jsTruthy expectedToken
    let externalResourceId : Option String :=
      if jsTruthy headers.xGoogResourceUri then
        parseUri (headers.xGoogResourceUri.getD "")
      else none
    if jsTruthy externalResourceId = false then
      { success := false
        error := some "Could not extract actual Drive folder ID from x-goog-resource-uri."
        signatureValidated := signatureValidated }
    else
      let resourceState := headers.xGoogResourceState
      let changeType : ChangeType :=
        if resourceState = some "exists" ∨ resourceState = some "add" ∨
            resourceState = some "update" then .upsert
        else if resourceState = some "not_exists" ∨ resourceState = some "trash" then .del
        else .unknown
      { success := true
        externalResourceId := externalResourceId
        rawPayload := some (.gdriveHeaders headers.xGoogResourceId headers.xGoogResourceState
          headers.xGoogChannelId headers.xGoogMessageNumber headers.xGoogResourceUri)
        changeType := some changeType
        signatureValidated := signatureValidated }

/-- `processWebhookRequest` (`processWebhookRequest.ts` lines 157-193):
type-normalise the body, dispatch on the service, map to
`ProcessedWebhookResult`. -/
def processWebhookRequest (hmac : String → String → String)
    (parseUri : String → Option String) (webhookService : String)
    (headers : Headers) (secret : Option String) (body : BodyVal) :
    ProcessedWebhookResult :=
  if body.typeOk = false then
    { isValid := false, error := some "Invalid webhook body type." }
  else
    let result : WebhookResult :=
      if webhookService = "git-crawler" then
        handleGitWebhook hmac headers body secret
      else if webhookService = "googledrive-crawler" then
        handleGDriveWebhook parseUri headers secret
      else
        { success := false, error := some "No handler found for webhook service." }
    { isValid := result.success && (if jsTruthy secret then result.signatureValidated else true)
      payload := result.rawPayload
      externalResourceId := result.externalResourceId
      changeType := result.changeType
      error := jsOr result.error
        (if result.success && !result.signatureValidated && jsTruthy secret then
          some "Webhook signature validation skipped or failed."
        else none) }

/-- The broad endpoint filter of `triggerWebhookTask` (lines 378-381):
enabled tasks with a webhook trigger whose `endpointId` matches. -/
def tasksMatchingEndpoint (st : ManagerState) (endpointId : String) :
    List IngestionTaskDefinition :=
  (listAllTasksS st).filter (fun t =>
    t.enabled &&
      match t.trigger with
      | .webhook w => w.endpointId = endpointId
      | _ => false)

/-- The per-task fan-out loop of `triggerWebhookTask` (lines 452-479):
re-fetch the task, enrich the payload with the current registry cursors, run
the orchestrator; collect invocations and statuses in order. -/
def webhookLoop (orchOf : String → GSStatus) (wall : Int)
    (finalResult : ProcessedWebhookResult) :
    List IngestionTaskDefinition → ManagerState →
    ManagerState × List (String × Payload) × List GSStatus
  | [], st => (st, [], [])
  | task :: rest, st =>
      match getTaskS st task.id with
      | none => webhookLoop orchOf wall finalResult rest st
      | some taskToExecute =>
          let sid? := getSourceIdentifier taskToExecute.source.pluginType
            taskToExecute.source.config
          let currentWebhookState : Option WebhookRegistryEntry :=
            if jsTruthy sid? then getWebhookRegistrationS st (sid?.getD "") else none
          let initialPayload : Payload :=
            { taskDefinition := some taskToExecute
              webhookPayload := finalResult.payload
              externalResourceId := finalResult.externalResourceId
              changeType := finalResult.changeType
              startPageToken := currentWebhookState.bind (·.startPageToken)
              nextPageToken := currentWebhookState.bind (·.nextPageToken)
              otherCrawlerSpecificTokens := currentWebhookState.bind (·.otherCrawlerSpecificTokens) }
          let run := runOrchestrator (orchOf task.id) wall st taskToExecute
          let r := webhookLoop orchOf wall finalResult rest run.2
          (r.1, (task.id, initialPayload) :: r.2.1, run.1 :: r.2.2)

/-- `GlobalIngestionLifecycleManager.triggerWebhookTask` (lines 374-488).
Returns the response status, the final state, and the orchestrator
invocations performed. -/
def triggerWebhookTask (hmac : String → String → String)
    (parseUri : String → Option String) (orchOf : String → GSStatus) (wall : Int)
    (st : ManagerState) (endpointId : String) (headers : Headers) (body : BodyVal) :
    GSStatus × ManagerState × List (String × Payload) :=
  let tasksME := tasksMatchingEndpoint st endpointId
  match tasksME with
  | [] => (⟨false, 404, "No enabled tasks found for webhook endpoint ID.", none⟩, st, [])
  | firstTask :: _ =>
      let webhookService := firstTask.source.pluginType
      let initialProcessedResult :=
        processWebhookRequest hmac parseUri webhookService headers none body
      if initialProcessedResult.isValid = false then
        (⟨false, 400, jsOrD initialProcessedResult.error
          "Preliminary webhook processing failed.", none⟩, st, [])
      else if jsTruthy initialProcessedResult.externalResourceId = false then
        (⟨false, 400, "Webhook processed successfully but could not extract externalResourceId.", none⟩, st, [])
      else
        let resourceId := initialProcessedResult.externalResourceId.getD ""
        match getWebhookRegistrationS st resourceId with
        | none =>
            (⟨true, 200, "No webhook registration found for resource.", none⟩, st, [])
        | some webhookEntry =>
            let finalProcessedResult :=
              processWebhookRequest hmac parseUri webhookService headers
                (some webhookEntry.secret) body
            if finalProcessedResult.isValid = false then
              (⟨false, 401, jsOrD finalProcessedResult.error
                "Webhook request signature validation failed.", none⟩, st, [])
            else if finalProcessedResult.externalResourceId ≠ initialProcessedResult.externalResourceId then
              (⟨false, 500, "Resource ID mismatch after full webhook validation.", none⟩, st, [])
            else
              let tasksToTriggerForResource := tasksME.filter (fun t =>
                webhookEntry.registeredTasks.contains t.id)
              match tasksToTriggerForResource with
              | [] =>
                  (⟨true, 200, "Webhook registration exists, but no enabled tasks are currently linked to it.", none⟩, st, [])
              | _ =>
                  let r := webhookLoop orchOf wall finalProcessedResult
                    tasksToTriggerForResource st
                  ((r.2.2.head?).getD
                    ⟨false, 500, "Webhook could not be triggered due to an unknown error.", none⟩,
                   r.1, r.2.1)

/-- The `data` object of a source-plugin `GSStatus` as the orchestrator reads
it (`orchestrator.ts` lines 951-961).  `ddata` is `data.data` (a list or a
scalar; raw items are opaque strings); `selfItem` is the raw-item view of the
whole `data` object, used when `data.data` is absent or falsy. -/
structure SrcData where
  ddata : Option (Sum String (List String)) := none
  selfItem : String := ""
  deriving Repr, DecidableEq, Inhabited

/-- The `GSStatus` returned by `sourceDataSource.execute`. -/
structure SrcStatus where
  success : Bool
  message : String := ""
  data : Option SrcData := none
  deriving Repr, DecidableEq, Inhabited

/-- The result of `destination.processData`. -/
structure DestStatus where
  success : Bool
  message : String := ""
  deriving Repr, DecidableEq, Inhabited

/-- Events emitted on the orchestrator's event bus during `executeTask`. -/
inductive OrchEvent where
  | taskFailed (taskId : String)
  | dataFetched (rawData : List String) (taskId : String)
  | dataTransformed (transformedData : List String) (taskId : String)
  | dataProcessed (transformedData : List String) (taskId : String)
  | taskCompleted (taskId : String)
  deriving Repr, DecidableEq, Inhabited

/-- JavaScript truthiness of `data.data`: arrays are always truthy, a scalar
string is truthy when nonempty, `undefined` is falsy. -/
def ddataTruthy : Option (Sum String (List String)) → Bool
  | some (.inr _) => true
  | some (.inl s) => s ≠ ""
  | none => false

/-- The raw-data flattening of `executeTask` (lines 951-961): a truthy
`data.data` list is used directly, a truthy scalar is wrapped into a
singleton, otherwise a present `data` is itself wrapped, and absent data
yields the empty list. -/
def flattenRaw (d : Option SrcData) : List String :=
  match d with
  | some sd =>
      if ddataTruthy sd.ddata then
        match sd.ddata with
        | some (.inr l) => l
        | some (.inl x) => [x]
        | none => []
      else [sd.selfItem]
  | none => []

/-- `IngestionOrchestrator.executeTask` (`orchestrator.ts` lines 924-1025).
`hasSource` / `hasTransformer` model the constructor-injection guard;
`initExc` a thrown `initClient` error; `srcOutcome` the source plugin's
`execute` (exception or status); `transf` the transformer (which receives the
payload augmented with `fetchedAt`); `dest` the configured destination's
`processData`, absent when no destination is configured.  Returns the final
status, the emitted events in order, and the list of `processData` calls. -/
def executeTask (hasSource hasTransformer : Bool) (initExc : Option String)
    (srcOutcome : Except String SrcStatus)
    (transf : List String → Int → Except String (List String))
    (dest : Option (List String → Except String DestStatus))
    (taskId : String) (fetchedAt : Int) :
    GSStatus × List OrchEvent × List (List String) :=
  if (hasSource && hasTransformer) = false then
    (⟨false, 400, "Orchestrator not fully configured. DataSource and dataTransformer are required.", none⟩,
     [.taskFailed taskId], [])
  else
    match initExc with
    | some msg =>
        (⟨false, 500, "Ingestion task failed: " ++ msg,
          some { itemsProcessed := some 0, errData := some msg }⟩,
         [.taskFailed taskId], [])
    | none =>
        match srcOutcome with
        | .error msg =>
            (⟨false, 500, "Ingestion task failed: " ++ msg,
              some { itemsProcessed := some 0, errData := some msg }⟩,
             [.taskFailed taskId], [])
        | .ok sourceResultStatus =>
            if sourceResultStatus.success = false then
              (⟨false, 500, "Source execution failed.",
                some { errData := some sourceResultStatus.message }⟩,
               [.taskFailed taskId], [])
            else
              let rawData := flattenRaw sourceResultStatus.data
              match transf rawData fetchedAt with
              | .error msg =>
                  (⟨false, 500, "Ingestion task failed: " ++ msg,
                    some { itemsProcessed := some 0, errData := some msg }⟩,
                   [.dataFetched rawData taskId, .taskFailed taskId], [])
              | .ok transformedData =>
                  if transformedData.length = 0 then
                    (⟨true, 200, "Ingestion task completed: No data from source.",
                      some { itemsProcessed := some 0 }⟩,
                     [.dataFetched rawData taskId, .dataTransformed transformedData taskId,
                      .taskCompleted taskId], [])
                  else
                    match dest with
                    | some destProcessData =>
                        match destProcessData transformedData with
                        | .ok sendResult =>
                            if sendResult.success = false then
                              (⟨false, 500, "Destination processing failed.",
                                some { itemsProcessed := some 0 }⟩,
                               [.dataFetched rawData taskId,
                                .dataTransformed transformedData taskId,
                                .taskFailed taskId], [transformedData])
                            else
                              (⟨true, 200, "Ingestion task completed successfully.",
                                some { itemsProcessed := some transformedData.length }⟩,
                               [.dataFetched rawData taskId,
                                .dataTransformed transformedData taskId,
                                .dataProcessed transformedData taskId,
                                .taskCompleted taskId], [transformedData])
                        | .error msg =>
                            (⟨false, 500, "Error during destination processing.",
                              some { itemsProcessed := some 0, errData := some msg }⟩,
                             [.dataFetched rawData taskId,
                              .dataTransformed transformedData taskId,
                              .taskFailed taskId], [transformedData])
                    | none =>
                        (⟨true, 200, "Ingestion task completed successfully.",
                          some { itemsProcessed := some transformedData.length }⟩,
                         [.dataFetched rawData taskId,
                          .dataTransformed transformedData taskId,
                          .taskCompleted taskId], [])

/-- The per-task decision of the cron loop as a pure function of the task:
whether (and with which payload) `triggerAllEnabledCronTasks` invokes the
orchestrator for it.  The decision only reads the task itself, never the
threaded state, which is what makes the loop's invocation list a
`filterMap`. -/
def cronDecision (prev : String → Int → Option Int) (now : Int)
    (task : IngestionTaskDefinition) : Option (String × Payload) :=
  match task.trigger, task.enabled with
  | .cron expression, true =>
      (match prev expression now with
       | none => none
       | some previousRunTime =>
           if cronJobDue now previousRunTime task.lastRun then
             some (task.id, { taskDefinition := some task, webhookPayload := some (.str "") })
           else none)
  | _, _ => none

/-!
Concrete fixtures used by the witness, counterexample and evaluation
theorems below.
-/

/-- A cron-triggered task used to evaluate `deleteTask` on a non-webhook task. -/
def taskC1 : IngestionTaskDefinition :=
  { id := "t1", name := "cron task"
    source := { pluginType := "git-crawler", config := { repoUrl := some "https://github.com/ex/r" } }
    trigger := .cron "*/1 * * * *" }

/-- Store holding only `taskC1`. -/
def stC1 : ManagerState := { tasks := [("t1", taskC1)] }

/-- A provider deregistration call that succeeds. -/
def deregOk : DeregResult := { success := true }

/-- A provider deregistration call that fails. -/
def deregFail : DeregResult := { success := false, message := some "boom" }

/-- An always-successful orchestrator pipeline result. -/
def orchOkFn : String → GSStatus := fun _ => ⟨true, 200, "ok", none⟩

/-- A cron-parser model: the previous scheduled moment is thirty seconds
before now (an every-minute schedule observed at second thirty). -/
def prevThirty : String → Int → Option Int := fun _ now => some (now - 30 * 1000)

/-- An enabled cron task over a git source. -/
def taskC2 : IngestionTaskDefinition :=
  { id := "t1"
    source := { pluginType := "git-crawler", config := { repoUrl := some "R" } }
    trigger := .cron "*/1 * * * *" }

/-- Store holding only `taskC2`, with the git source plugin registered. -/
def stC2 : ManagerState := { tasks := [("t1", taskC2)], registeredSources := ["git-crawler"] }

/-- Webhook trigger with credentials, for the Drive-source fixtures. -/
def whTrigGd : WebhookTrigger := { endpointId := "/gd", callbackurl := "cb", credentials := some "cred" }

/-- A webhook-triggered Drive task whose source identifier is folder `F`. -/
def taskC3 : IngestionTaskDefinition :=
  { id := "a"
    source := { pluginType := "googledrive-crawler", config := { folderId := some "F" } }
    trigger := .webhook whTrigGd }

/-- Registry entry for folder `F` with `taskC3` as its only registered task. -/
def entryC3 : WebhookRegistryEntry :=
  { sourceIdentifier := "F", endpointId := "/gd", secret := "s"
    externalWebhookId := "42", registeredTasks := ["a"] }

/-- Store holding `taskC3` and its registry entry. -/
def stC3 : ManagerState :=
  { tasks := [("a", taskC3)], webhookRegistrations := [("F", entryC3)] }

/-- A webhook-triggered Drive task definition as handed to `scheduleTask`. -/
def tdC4 : IngestionTaskDefinition :=
  { id := "w1", name := "n"
    source := { pluginType := "googledrive-crawler", config := { folderId := some "F" } }
    trigger := .webhook whTrigGd }

/-- A successful provider registration returning an external id and a start
page token. -/
def extRegC4 : ExtRegResult :=
  { success := true, externalId := some "X1", startpageToken := some "42" }

/-- `tdC4` as persisted by `scheduleTask` before webhook registration. -/
def baseC4 : IngestionTaskDefinition :=
  { tdC4 with
    id := "w1"
    currentStatus := some IngestionTaskStatus.scheduled
    lastRun := none
    lastRunStatus := none }

/-- A constant HMAC model. -/
def hmacConst : String → String → String := fun _ _ => "cafe"

/-- A URL-parse model that always fails (no Drive request is dispatched in
these fixtures). -/
def parseUriNone : String → Option String := fun _ => none

/-- Webhook trigger for the git dispatch fixtures. -/
def whTrigGh : WebhookTrigger := { endpointId := "/gh", callbackurl := "cb", credentials := some "cred" }

/-- Enabled git webhook task listening on endpoint `/gh`. -/
def taskC5 : IngestionTaskDefinition :=
  { id := "g1"
    source := { pluginType := "git-crawler", config := { repoUrl := some "https://github.com/ex/r" } }
    trigger := .webhook whTrigGh }

/-- Registry entry for the `ex/r` repository with secret `abc`. -/
def entryC5 : WebhookRegistryEntry :=
  { sourceIdentifier := "https://github.com/ex/r", endpointId := "/gh", secret := "abc"
    externalWebhookId := "42", registeredTasks := ["g1"] }

/-- Store for the git dispatch fixtures. -/
def stC5 : ManagerState :=
  { tasks := [("g1", taskC5)]
    webhookRegistrations := [("https://github.com/ex/r", entryC5)]
    registeredSources := ["git-crawler"] }

/-- Headers whose signature value extends the correct `sha256=cafe` hash with
a further `=junk` segment: it differs from `sha256=` + HMAC yet validates. -/
def headersC5 : Headers :=
  { xHubSignature256 := some "sha256=cafe=junk", xGithubEvent := some "push" }

/-- Headers carrying a genuinely wrong hash segment. -/
def headersC5w : Headers :=
  { xHubSignature256 := some "sha256=beef", xGithubEvent := some "push" }

/-- A push body for repository `ex/r`. -/
def bodyC5 : BodyVal := { raw := "B", repoFullName := some "ex/r" }

/-- An enabled cron task over the Drive folder `F`. -/
def taskC6 : IngestionTaskDefinition :=
  { id := "t1"
    source := { pluginType := "googledrive-crawler", config := { folderId := some "F" } }
    trigger := .cron "*/1 * * * *" }

/-- Registry entry for folder `F` carrying continuation cursors. -/
def entryC6 : WebhookRegistryEntry :=
  { sourceIdentifier := "F", endpointId := "/gd", secret := "s"
    externalWebhookId := "42", registeredTasks := ["t1"]
    startPageToken := some "s1", nextPageToken := some "n9" }

/-- Store holding `taskC6` and the cursor-carrying entry. -/
def stC6 : ManagerState :=
  { tasks := [("t1", taskC6)]
    webhookRegistrations := [("F", entryC6)]
    registeredSources := ["googledrive-crawler"] }

/-- A cron task over a git source with no registry entry. -/
def taskC7 : IngestionTaskDefinition :=
  { id := "t1"
    source := { pluginType := "git-crawler", config := { repoUrl := some "R" } }
    trigger := .cron "*/5 * * * *" }

/-- Store holding `taskC7` only; no registry entries. -/
def stC7 : ManagerState := { tasks := [("t1", taskC7)], registeredSources := ["git-crawler"] }

/-- An orchestrator result whose data carries a next-page cursor. -/
def orchResC7 : GSStatus := ⟨true, 200, "ok", some { nextPageToken := some "n9" }⟩

/-- An http-crawler config with `startUrl` but no `url`. -/
def cfgC8 : SourceConfig := { startUrl := some "https://s.example" }

/-- A task of an unknown plugin type, webhook-triggered. -/
def taskC8 : IngestionTaskDefinition :=
  { id := "u1", source := { pluginType := "x-crawler" }, trigger := .webhook whTrigGh }

/-- Store holding only `taskC8`. -/
def stC8 : ManagerState := { tasks := [("u1", taskC8)] }

/-- A manual task used for the store-overwrite fixtures. -/
def taskC9a : IngestionTaskDefinition :=
  { id := "x", name := "a", source := { pluginType := "git-crawler" }, trigger := .manual }

/-- Same id as `taskC9a`, different name. -/
def taskC9b : IngestionTaskDefinition := { taskC9a with name := "b" }

/-- A successful source status yielding two raw items. -/
def srcC10 : SrcStatus :=
  { success := true, data := some { ddata := some (.inr ["r1", "r2"]) } }

/-- A transformer that discards every record. -/
def transfEmpty : List String → Int → Except String (List String) := fun _ _ => .ok []

/-- A destination that would report success if it were ever called. -/
def destC10 : Option (List String → Except String DestStatus) :=
  some (fun _ => .ok { success := true })

-- ### Theorems

/-- Lookup after a `Map.set` at the same key. -/
theorem mapGet_mapSet_self {α : Type} (m : List (String × α)) (k : String) (v : α) :
    mapGet (mapSet m k v) k = some v := by
  induction m with
  | nil => simp [mapSet, mapGet]
  | cons p rest ih =>
      obtain ⟨a, b⟩ := p
      by_cases h : a = k <;> simp [mapSet, mapGet, h, ih]

/-- Lookup after a `Map.set` at a different key. -/
theorem mapGet_mapSet_ne {α : Type} (m : List (String × α)) (k k2 : String) (v : α)
    (h : k ≠ k2) : mapGet (mapSet m k v) k2 = mapGet m k2 := by
  induction m with
  | nil => simp [mapSet, mapGet, h]
  | cons p rest ih =>
      obtain ⟨a, b⟩ := p
      by_cases ha : a = k
      · subst ha
        simp [mapSet, mapGet, h]
      · simp [mapSet, mapGet, ha, ih]

/-- `Map.set` at an existing key leaves the key list unchanged. -/
theorem mapSet_keys_of_mem {α : Type} (m : List (String × α)) (k : String) (v v0 : α)
    (h : mapGet m k = some v0) : (mapSet m k v).map Prod.fst = m.map Prod.fst := by
  induction m with
  | nil => simp [mapGet] at h
  | cons p rest ih =>
      obtain ⟨a, b⟩ := p
      by_cases ha : a = k
      · simp [mapSet, ha]
      · simp [mapGet, ha] at h
        simp [mapSet, ha, ih h]

/-- A key outside the key list is not found. -/
theorem mapGet_eq_none_of_not_mem_keys {α : Type} (m : List (String × α)) (k : String)
    (h : k ∉ m.map Prod.fst) : mapGet m k = none := by
  induction m with
  | nil => rfl
  | cons p rest ih =>
      obtain ⟨a, b⟩ := p
      simp only [List.map_cons, List.mem_cons, not_or] at h
      have ha : a ≠ k := fun hh => h.1 hh.symm
      simp [mapGet, ha, ih h.2]

/-- Deleting a key from a map with pairwise-distinct keys removes it. -/
theorem mapGet_mapDel_self {α : Type} (m : List (String × α)) (k : String)
    (h : (m.map Prod.fst).Nodup) : mapGet (mapDel m k) k = none := by
  induction m with
  | nil => rfl
  | cons p rest ih =>
      obtain ⟨a, b⟩ := p
      simp only [List.map_cons, List.nodup_cons] at h
      by_cases ha : a = k
      · subst ha
        simp only [mapDel, if_pos rfl]
        exact mapGet_eq_none_of_not_mem_keys rest a h.1
      · simp [mapDel, ha, mapGet, ih h.2]

/-- Claim C1: `DeleteTask` on a task whose trigger is not a webhook trigger.
The code leaves `res` undefined outside the webhook branch, so the
`if (!res?.success)` guard aborts with 403 and the task is retained,
contradicting the claim (and the evident intent) that a non-webhook task is
removed with a success status.  Evaluation at the failing input: a store
holding one cron-triggered task. -/
theorem c1_deleteTask_nonwebhook_aborts :
    deleteTask deregOk stC1 "t1" = (⟨false, 403, "error in deleting task", none⟩, stC1) ∧
    getTaskS (deleteTask deregOk stC1 "t1").2 "t1" = some taskC1 := by
  constructor <;> rfl

/-- Claim C6: a due cron task whose source identifier has a registry entry
with cursors.  Line 543 rebuilds the payload as
`{taskDefinition, webhookPayload: ""}`, so the orchestrator invocation does
not carry the entry's tokens, contradicting the enrichment the surrounding
code (and its comment at line 530) assembles. -/
theorem c6_cron_payload_drops_tokens :
    getWebhookRegistrationS stC6 "F" = some entryC6 ∧
    entryC6.nextPageToken = some "n9" ∧
    entryC6.startPageToken = some "s1" ∧
    (triggerAllEnabledCronTasks prevThirty orchOkFn 99 1000000 stC6).2.2 =
      [("t1", { taskDefinition := some taskC6, webhookPayload := some (.str "") })] := by
  refine ⟨rfl, rfl, rfl, ?_⟩
  rfl

/-- Claim C7 counterexample: a cron-triggered task with no registry entry
whose orchestrator result carries a cursor; `runOrchestrator` creates a
minimal entry anyway (with `unknown` placeholders), refuting the claim that
no webhook-registry write occurs for cron or manual triggers. -/
theorem c7_cron_entry_created_counterexample :
    taskC7.trigger = .cron "*/5 * * * *" ∧
    getWebhookRegistrationS stC7 "R" = none ∧
    getWebhookRegistrationS (runOrchestrator orchResC7 99 stC7 taskC7).2 "R" =
      some { sourceIdentifier := "R", endpointId := "unknown", secret := "unknown"
             externalWebhookId := "unknown", registeredTasks := ["t1"], webhookFlag := true
             nextPageToken := some "n9" } := by
  refine ⟨rfl, rfl, ?_⟩
  rfl

/-- Claim C8 counterexample: for `http-crawler` the code reads only
`config.url`; a config with `startUrl` set and `url` absent yields `nil`,
not the claimed `startUrl` fallback. -/
theorem c8_http_starturl_counterexample :
    cfgC8.startUrl = some "https://s.example" ∧
    getSourceIdentifier "http-crawler" cfgC8 = none := ⟨rfl, rfl⟩

/-- Claim C9 counterexample: `InMemoryDatabaseService.saveTask` has no
conflict check; saving a second task under an existing id silently replaces
the first and reports no error. -/
theorem c9_savetask_overwrites_counterexample :
    taskC9a.id = "x" ∧ taskC9b.id = "x" ∧ taskC9a ≠ taskC9b ∧
    getTaskS (saveTaskS (saveTaskS {} taskC9a) taskC9b) "x" = some taskC9b := by
  refine ⟨rfl, rfl, ?_, rfl⟩
  decide

/-- Claim C5 counterexample: a signature header extending the correct
`sha256=<hmac>` value with a further `=`-separated segment differs from
`sha256=` + HMAC yet still validates — the handler destructures only the
first two `split("=")` segments — so the dispatch returns 200 and invokes
the orchestrator instead of failing with 401. -/
theorem c5_signature_counterexample :
    headersC5.xHubSignature256 = some "sha256=cafe=junk" ∧
    "sha256=cafe=junk" ≠ "sha256=" ++ hmacConst "abc" bodyC5.raw ∧
    (triggerWebhookTask hmacConst parseUriNone orchOkFn 99 stC5 "/gh" headersC5 bodyC5).1.code = 200 ∧
    (triggerWebhookTask hmacConst parseUriNone orchOkFn 99 stC5 "/gh" headersC5 bodyC5).1.success = true ∧
    (triggerWebhookTask hmacConst parseUriNone orchOkFn 99 stC5 "/gh" headersC5 bodyC5).2.2.length = 1 := by
  refine ⟨rfl, by decide, ?_, ?_, ?_⟩ <;> decide

/-- Claim C4 counterexample: scheduling an enabled webhook task whose
registration creates a new registry entry spreads the whole entry onto the
stored task (`updateTask(taskId, { trigger, ...newWebhookEntry })`), so the
round trip adds fields — here `registeredTasks` and `webhookFlag` — that the
claim says are never added or changed. -/
theorem c4_roundtrip_counterexample :
    tdC4.registeredTasks = none ∧ tdC4.webhookFlag = none ∧
    ((getTaskS (scheduleTask "u" "s3" extRegC4 {} tdC4).2 "w1").map (·.registeredTasks)) =
      some (some ["w1"]) ∧
    ((getTaskS (scheduleTask "u" "s3" extRegC4 {} tdC4).2 "w1").map (·.webhookFlag)) =
      some (some true) := by
  refine ⟨rfl, rfl, ?_, ?_⟩ <;> rfl

/-- Task-table updates leave the webhook registry untouched. -/
theorem updateTaskS_webhookRegistrations (st : ManagerState) (taskId : String)
    (f : IngestionTaskDefinition → IngestionTaskDefinition) :
    (updateTaskS st taskId f).webhookRegistrations = st.webhookRegistrations := by
  unfold updateTaskS
  split <;> rfl

/-- Registry updates leave the task table untouched. -/
theorem updateWebhookRegistrationS_tasks (st : ManagerState) (sid : String)
    (f : WebhookRegistryEntry → WebhookRegistryEntry) :
    (updateWebhookRegistrationS st sid f).tasks = st.tasks := by
  unfold updateWebhookRegistrationS
  split <;> rfl

/-- Looking up a just-updated registry entry. -/
theorem getWebhook_update_self (st : ManagerState) (sid : String)
    (f : WebhookRegistryEntry → WebhookRegistryEntry) (e : WebhookRegistryEntry)
    (h : getWebhookRegistrationS st sid = some e) :
    getWebhookRegistrationS (updateWebhookRegistrationS st sid f) sid = some (f e) := by
  unfold getWebhookRegistrationS updateWebhookRegistrationS at *
  rw [h]
  exact mapGet_mapSet_self _ _ _

/-- Looking up a just-saved registry entry. -/
theorem getWebhook_save_self (st : ManagerState) (e : WebhookRegistryEntry) :
    getWebhookRegistrationS (saveWebhookRegistrationS st e) e.sourceIdentifier = some e := by
  unfold getWebhookRegistrationS saveWebhookRegistrationS
  exact mapGet_mapSet_self _ _ _

/-- After updating and then deleting a registry key (distinct keys assumed),
the key is gone. -/
theorem getWebhook_del_update_self (st : ManagerState) (sid : String)
    (f : WebhookRegistryEntry → WebhookRegistryEntry) (e : WebhookRegistryEntry)
    (hkeys : (st.webhookRegistrations.map Prod.fst).Nodup)
    (h : getWebhookRegistrationS st sid = some e) :
    getWebhookRegistrationS
      (deleteWebhookRegistrationS (updateWebhookRegistrationS st sid f) sid) sid = none := by
  unfold getWebhookRegistrationS deleteWebhookRegistrationS updateWebhookRegistrationS at *
  rw [h]
  simp only
  apply mapGet_mapDel_self
  rw [mapSet_keys_of_mem _ _ _ _ h]
  exact hkeys

/-- Task-table updates leave the registered plugin list untouched. -/
theorem updateTaskS_registeredSources (st : ManagerState) (taskId : String)
    (f : IngestionTaskDefinition → IngestionTaskDefinition) :
    (updateTaskS st taskId f).registeredSources = st.registeredSources := by
  unfold updateTaskS
  split <;> rfl

/-- Registry lookups see through task-table updates. -/
theorem getWebhookRegistrationS_updateTaskS (st : ManagerState) (taskId : String)
    (f : IngestionTaskDefinition → IngestionTaskDefinition) (sid : String) :
    getWebhookRegistrationS (updateTaskS st taskId f) sid = getWebhookRegistrationS st sid := by
  unfold getWebhookRegistrationS
  rw [updateTaskS_webhookRegistrations]

/-- Updating an entry right after saving it yields the updated entry. -/
theorem getWebhook_update_save_self (st : ManagerState) (e : WebhookRegistryEntry)
    (sid : String) (f : WebhookRegistryEntry → WebhookRegistryEntry)
    (h : e.sourceIdentifier = sid) :
    getWebhookRegistrationS (updateWebhookRegistrationS (saveWebhookRegistrationS st e) sid f) sid
      = some (f e) := by
  apply getWebhook_update_self
  rw [← h]
  exact getWebhook_save_self st e

/-- Looking up a just-updated task. -/
theorem getTaskS_updateTaskS_self (st : ManagerState) (taskId : String)
    (f : IngestionTaskDefinition → IngestionTaskDefinition) (t : IngestionTaskDefinition)
    (h : getTaskS st taskId = some t) :
    getTaskS (updateTaskS st taskId f) taskId = some (f t) := by
  unfold getTaskS updateTaskS at *
  rw [h]
  exact mapGet_mapSet_self _ _ _

/-- Claim C9 (amended): the store's `saveTask` never fails — saving under an
existing id replaces the stored task — while the duplicate-id rejection
lives in `scheduleTask`, which returns a 409 Conflict and leaves the state
unchanged when the id is already present. -/
theorem c9_savetask_overwrite_amended (st : ManagerState) (t : IngestionTaskDefinition) :
    getTaskS (saveTaskS st t) t.id = some t ∧
    (∀ freshId freshSecret extReg td,
      (getTaskS st (if td.id ≠ "" then td.id else freshId)).isSome = true →
      scheduleTask freshId freshSecret extReg st td =
        (⟨false, 409, "Task already exists.", none⟩, st)) := by
  constructor
  · exact mapGet_mapSet_self st.tasks t.id t
  · intro freshId freshSecret extReg td h
    simp only [ne_eq, ite_not] at h
    simp [scheduleTask, h]

/-- Claim C9 witness: the amended statement evaluated on a concrete store. -/
theorem c9_witness :
    getTaskS (saveTaskS stC1 taskC9b) "x" = some taskC9b ∧
    scheduleTask "u" "s" extRegC4 stC1 taskC1 =
      (⟨false, 409, "Task already exists.", none⟩, stC1) := by
  have h := c9_savetask_overwrite_amended stC1 taskC9b
  exact ⟨h.1, h.2 "u" "s" extRegC4 taskC1 (by decide)⟩

/-- Claim C8 (amended): the source-identifier derivation maps `git-crawler`
to `repoUrl`, `googledrive-crawler` to `folderId`, `http-crawler` to `url`
only (no `startUrl` fallback), `teams-chat-crawler` to
`meetingId || chatId`, and every other plugin type to `nil`; when the
derived identifier is not truthy, `registerWebhook` and `deregisterWebhook`
fail with a 400 unsupported-source status and leave the state unchanged. -/
theorem c8_source_identifier_amended :
    (∀ c : SourceConfig, getSourceIdentifier "git-crawler" c = c.repoUrl) ∧
    (∀ c : SourceConfig, getSourceIdentifier "googledrive-crawler" c = c.folderId) ∧
    (∀ c : SourceConfig, getSourceIdentifier "http-crawler" c = c.url) ∧
    (∀ c : SourceConfig, getSourceIdentifier "teams-chat-crawler" c = jsOr c.meetingId c.chatId) ∧
    (∀ (p : String) (c : SourceConfig), p ≠ "git-crawler" → p ≠ "googledrive-crawler" →
      p ≠ "teams-chat-crawler" → p ≠ "http-crawler" → getSourceIdentifier p c = none) ∧
    (∀ freshSecret extReg st (td : IngestionTaskDefinition),
      jsTruthy (getSourceIdentifier td.source.pluginType td.source.config) = false →
      registerWebhook freshSecret extReg st td =
        (⟨false, 400, "Webhook registration not supported or source identifier missing.", none⟩, st)) ∧
    (∀ deregExt st taskId (task : IngestionTaskDefinition) (w : WebhookTrigger),
      getTaskS st taskId = some task → task.trigger = .webhook w →
      jsTruthy (getSourceIdentifier task.source.pluginType task.source.config) = false →
      deregisterWebhook deregExt st taskId =
        (⟨false, 400, "Webhook deregistration not supported or source identifier missing.", none⟩, st)) := by
  refine ⟨fun c => rfl, fun c => rfl, fun c => rfl, fun c => rfl, ?_, ?_, ?_⟩
  · intro p c h1 h2 h3 h4
    simp [getSourceIdentifier, h1, h2, h3, h4]
  · intro freshSecret extReg st td h
    simp [registerWebhook, h]
  · intro deregExt st taskId task w htask htr h
    simp [deregisterWebhook, htask, htr, h]

/-- Claim C8 witness: the amended statement evaluated at concrete inputs,
among them an unknown plugin type with a webhook register and deregister
attempt. -/
theorem c8_witness :
    getSourceIdentifier "x-crawler" cfgC8 = none ∧
    registerWebhook "s" extRegC4 stC8 taskC8 =
      (⟨false, 400, "Webhook registration not supported or source identifier missing.", none⟩, stC8) ∧
    deregisterWebhook deregOk stC8 "u1" =
      (⟨false, 400, "Webhook deregistration not supported or source identifier missing.", none⟩, stC8) := by
  have h := c8_source_identifier_amended
  exact ⟨h.2.2.2.2.1 "x-crawler" cfgC8 (by decide) (by decide) (by decide) (by decide),
         h.2.2.2.2.2.1 "s" extRegC4 stC8 taskC8 (by decide),
         h.2.2.2.2.2.2 deregOk stC8 "u1" taskC8 whTrigGh rfl rfl (by decide)⟩

/-- Claim C3 counterexample: a failing provider deregistration surfaces an
error but does *not* restore the removed task id — the registry entry
persists with an empty `registeredTasks` set after the operation,
contradicting both the restore step and the no-ghost-subscription
invariant. -/
theorem c3_ghost_entry_counterexample :
    (deregisterWebhook deregFail stC3 "a").1 =
      ⟨false, 500, "Failed to deregister webhook.", none⟩ ∧
    getWebhookRegistrationS (deregisterWebhook deregFail stC3 "a").2 "F" =
      some { entryC3 with registeredTasks := [] } := by
  constructor <;> rfl

/-- Claim C3 (amended): in the deregister flow, when removing the task id
empties the set, the entry is deleted if provider deregistration succeeds;
if provider deregistration fails, the error is surfaced to the caller but
the entry persists with an empty `registeredTasks` set — the removed task id
is not restored. -/
theorem c3_deregister_last_task_amended
    (deregExt : DeregResult) (st : ManagerState) (taskId : String)
    (task : IngestionTaskDefinition) (w : WebhookTrigger) (sid : String)
    (entry : WebhookRegistryEntry)
    (hkeys : (st.webhookRegistrations.map Prod.fst).Nodup)
    (htask : getTaskS st taskId = some task)
    (htr : task.trigger = .webhook w)
    (hplug : task.source.pluginType = "git-crawler" ∨ task.source.pluginType = "googledrive-crawler")
    (hsid : getSourceIdentifier task.source.pluginType task.source.config = some sid)
    (hsidne : sid ≠ "")
    (hentry : getWebhookRegistrationS st sid = some entry)
    (hlast : entry.registeredTasks = [taskId])
    (hext : entry.externalWebhookId ≠ "")
    (hcred : jsTruthy w.credentials = true) :
    (deregExt.success = true →
      (deregisterWebhook deregExt st taskId).1 =
        ⟨true, 200, "Webhook deregistered successfully.", none⟩ ∧
      getWebhookRegistrationS (deregisterWebhook deregExt st taskId).2 sid = none) ∧
    (deregExt.success = false →
      (deregisterWebhook deregExt st taskId).1 =
        ⟨false, 500, "Failed to deregister webhook.", none⟩ ∧
      getWebhookRegistrationS (deregisterWebhook deregExt st taskId).2 sid =
        some { entry with registeredTasks := [] }) := by
  have hJT : jsTruthy (getSourceIdentifier task.source.pluginType task.source.config) = true := by
    rw [hsid]
    simp [jsTruthy, hsidne]
  have hgetD : (getSourceIdentifier task.source.pluginType task.source.config).getD "" = sid := by
    rw [hsid]
    rfl
  constructor
  · intro hsucc
    constructor
    · simp [deregisterWebhook, htask, htr, hJT, hgetD, hentry, hlast, hext, hplug, hcred, hsucc]
    · simp only [deregisterWebhook, htask, htr, hJT, hgetD, hentry]
      simp [hlast, hext, hplug, hcred, hsucc]
      exact getWebhook_del_update_self st sid _ entry hkeys hentry
  · intro hfail
    constructor
    · simp [deregisterWebhook, htask, htr, hJT, hgetD, hentry, hlast, hext, hplug, hcred, hfail]
    · simp only [deregisterWebhook, htask, htr, hJT, hgetD, hentry]
      simp [hlast, hext, hplug, hcred, hfail]
      simpa using getWebhook_update_self st sid _ entry hentry

/-- Claim C3 witness: the amended statement at a concrete store, evaluated
with a succeeding and with a failing provider call. -/
theorem c3_witness :
    ((deregOk.success = true →
      (deregisterWebhook deregOk stC3 "a").1 =
        ⟨true, 200, "Webhook deregistered successfully.", none⟩ ∧
      getWebhookRegistrationS (deregisterWebhook deregOk stC3 "a").2 "F" = none) ∧
    (deregOk.success = false →
      (deregisterWebhook deregOk stC3 "a").1 =
        ⟨false, 500, "Failed to deregister webhook.", none⟩ ∧
      getWebhookRegistrationS (deregisterWebhook deregOk stC3 "a").2 "F" =
        some { entryC3 with registeredTasks := [] })) ∧
    ((deregFail.success = true →
      (deregisterWebhook deregFail stC3 "a").1 =
        ⟨true, 200, "Webhook deregistered successfully.", none⟩ ∧
      getWebhookRegistrationS (deregisterWebhook deregFail stC3 "a").2 "F" = none) ∧
    (deregFail.success = false →
      (deregisterWebhook deregFail stC3 "a").1 =
        ⟨false, 500, "Failed to deregister webhook.", none⟩ ∧
      getWebhookRegistrationS (deregisterWebhook deregFail stC3 "a").2 "F" =
        some { entryC3 with registeredTasks := [] })) := by
  constructor
  · exact c3_deregister_last_task_amended deregOk stC3 "a" taskC3 whTrigGd "F" entryC3
      (by decide) rfl rfl (by right; rfl) rfl (by decide) rfl (by decide) (by decide) (by decide)
  · exact c3_deregister_last_task_amended deregFail stC3 "a" taskC3 whTrigGd "F" entryC3
      (by decide) rfl rfl (by right; rfl) rfl (by decide) rfl (by decide) (by decide) (by decide)

/-- Claim C7 (amended): after an orchestrator run whose result carries
cursors, if no registry entry exists for the task's source identifier, a new
minimal entry holding the tokens is created for *every* trigger type —
webhook, cron, or manual alike — with `unknown` placeholders for
`endpointId`, `secret` and `externalWebhookId` whenever the trigger lacks
them; there is no webhook-only restriction. -/
theorem c7_cursor_writeback_amended (orchResult : GSStatus) (wall : Int)
    (st : ManagerState) (td : IngestionTaskDefinition) (sid : String) (d : GSData)
    (hsid : getSourceIdentifier td.source.pluginType td.source.config = some sid)
    (hsidne : sid ≠ "")
    (hdata : orchResult.data = some d)
    (htok : (d.startPageToken.isSome || d.nextPageToken.isSome ||
      d.otherCrawlerSpecificTokens.isSome) = true)
    (hnoentry : getWebhookRegistrationS st sid = none)
    (hplugin : st.registeredSources.contains td.source.pluginType = true) :
    getWebhookRegistrationS (runOrchestrator orchResult wall st td).2 sid =
      some { sourceIdentifier := sid
             endpointId := jsOrSD (asWebhookTrigger td.trigger).endpointId "unknown"
             secret := jsOrD (asWebhookTrigger td.trigger).secret "unknown"
             externalWebhookId := jsOrD (asWebhookTrigger td.trigger).externalWebhookId "unknown"
             registeredTasks := [td.id]
             webhookFlag := true
             startPageToken := d.startPageToken
             nextPageToken := d.nextPageToken
             otherCrawlerSpecificTokens := d.otherCrawlerSpecificTokens } := by
  have hJT : jsTruthy (getSourceIdentifier td.source.pluginType td.source.config) = true := by
    rw [hsid]
    simp [jsTruthy, hsidne]
  have hJT2 : jsTruthy (some sid) = true := by
    simp [jsTruthy, hsidne]
  cases hsucc : orchResult.success
  all_goals
    simp only [runOrchestrator, updateTaskS_registeredSources, hplugin, hsucc, hsid, hdata,
      hJT, hJT2, htok, getWebhookRegistrationS_updateTaskS, hnoentry]
    simp only [Bool.true_eq_false, Bool.false_eq_true, if_false, if_true, reduceIte,
      getWebhookRegistrationS_updateTaskS, hnoentry]
    rw [getWebhook_update_save_self _ _ _ _ rfl]
    cases d.startPageToken <;> cases d.nextPageToken <;>
      cases d.otherCrawlerSpecificTokens <;> rfl

/-- Claim C7 witness: the amended statement at a concrete cron task whose
run result carries a next-page cursor and whose store has no entry. -/
theorem c7_witness :
    getWebhookRegistrationS (runOrchestrator orchResC7 99 stC7 taskC7).2 "R" =
      some { sourceIdentifier := "R"
             endpointId := jsOrSD (asWebhookTrigger taskC7.trigger).endpointId "unknown"
             secret := jsOrD (asWebhookTrigger taskC7.trigger).secret "unknown"
             externalWebhookId := jsOrD (asWebhookTrigger taskC7.trigger).externalWebhookId "unknown"
             registeredTasks := ["t1"]
             webhookFlag := true
             startPageToken := none
             nextPageToken := some "n9"
             otherCrawlerSpecificTokens := none } :=
  c7_cursor_writeback_amended orchResC7 99 stC7 taskC7 "R" { nextPageToken := some "n9" }
    rfl (by decide) rfl (by decide) rfl (by decide)

/-- Claim C10: when the transformer returns an empty record list,
`executeTask` returns a success status with code 200 and
`itemsProcessed = 0`, emits `TaskCompleted`, and never calls the
destination's `processData`, whether or not a destination is configured. -/
theorem c10_executeTask_empty_transform
    (srcStatus : SrcStatus)
    (transf : List String → Int → Except String (List String))
    (dest : Option (List String → Except String DestStatus))
    (taskId : String) (fetchedAt : Int)
    (hsrc : srcStatus.success = true)
    (htrans : transf (flattenRaw srcStatus.data) fetchedAt = Except.ok []) :
    executeTask true true none (Except.ok srcStatus) transf dest taskId fetchedAt =
      (⟨true, 200, "Ingestion task completed: No data from source.",
        some { itemsProcessed := some 0 }⟩,
       [.dataFetched (flattenRaw srcStatus.data) taskId, .dataTransformed [] taskId,
        .taskCompleted taskId],
       []) := by
  simp [executeTask, hsrc, htrans]

/-- Claim C10 witness: evaluated with a concrete two-item source, a
record-discarding transformer, and a configured destination. -/
theorem c10_witness :
    executeTask true true none (Except.ok srcC10) transfEmpty destC10 "t1" 7 =
      (⟨true, 200, "Ingestion task completed: No data from source.",
        some { itemsProcessed := some 0 }⟩,
       [.dataFetched ["r1", "r2"] "t1", .dataTransformed [] "t1", .taskCompleted "t1"],
       []) :=
  c10_executeTask_empty_transform srcC10 transfEmpty destC10 "t1" 7 rfl rfl

/-- The cron loop's invocation list is the `filterMap` of the per-task
decision over the task snapshot: the threaded state never influences which
tasks run or with which payload. -/
theorem cronLoop_invocations (prev : String → Int → Option Int) (orchOf : String → GSStatus)
    (wall now : Int) :
    ∀ (tasks : List IngestionTaskDefinition) (st : ManagerState),
      (cronLoop prev orchOf wall now tasks st).2.1 =
        tasks.filterMap (cronDecision prev now) := by
  intro tasks
  induction tasks with
  | nil => intro st; rfl
  | cons task rest ih =>
      intro st
      cases htr : task.trigger with
      | manual => simp [cronLoop, cronDecision, htr, ih, List.filterMap_cons]
      | webhook w => simp [cronLoop, cronDecision, htr, ih, List.filterMap_cons]
      | cron expression =>
          cases hen : task.enabled
          · simp [cronLoop, cronDecision, htr, hen, ih, List.filterMap_cons]
          · cases hp : prev expression now with
            | none => simp [cronLoop, cronDecision, htr, hen, hp, ih, List.filterMap_cons]
            | some p =>
                by_cases hdue : cronJobDue now p task.lastRun = true
                · simp [cronLoop, cronDecision, htr, hen, hp, hdue, ih, List.filterMap_cons]
                · simp [cronLoop, cronDecision, htr, hen, hp, hdue, ih, List.filterMap_cons]

/-- The invocation list returned by `triggerAllEnabledCronTasks` equals the
decision `filterMap` over the task snapshot. -/
theorem triggerAll_invocations (prev : String → Int → Option Int)
    (orchOf : String → GSStatus) (wall now : Int) (st : ManagerState) :
    (triggerAllEnabledCronTasks prev orchOf wall now st).2.2 =
      (listAllTasksS st).filterMap (cronDecision prev now) := by
  simp only [triggerAllEnabledCronTasks]
  split
  · simpa using cronLoop_invocations prev orchOf wall now (listAllTasksS st) st
  · split
    · simpa using cronLoop_invocations prev orchOf wall now (listAllTasksS st) st
    · simpa using cronLoop_invocations prev orchOf wall now (listAllTasksS st) st

/-- A cron decision always carries the deciding task's own id. -/
theorem cronDecision_id (prev : String → Int → Option Int) (now : Int)
    (t : IngestionTaskDefinition) (a : String) (b : Payload)
    (h : cronDecision prev now t = some (a, b)) : a = t.id := by
  unfold cronDecision at h
  split at h
  · split at h
    · exact absurd h (by simp)
    · split at h
      · simp only [Option.some.injEq, Prod.mk.injEq] at h
        exact h.1.symm
      · exact absurd h (by simp)
  · exact absurd h (by simp)

/-- Claim C2: an enabled cron task with a parseable expression is invoked by
`TriggerAllEnabledCronTasks` iff its previous scheduled moment `p` satisfies
`p > now - 65s`, `p ≤ now`, and `lastRun` unset or `lastRun < p`;
consequently once `lastRun` is at or after `p` (as after a completed run in
the same slot) the task is not invoked again. -/
theorem c2_cron_due_iff (prev : String → Int → Option Int) (orchOf : String → GSStatus)
    (wall now : Int) (st : ManagerState) (task : IngestionTaskDefinition)
    (expression : String) (p : Int)
    (hmem : task ∈ listAllTasksS st)
    (hnodup : ((listAllTasksS st).map (·.id)).Nodup)
    (hen : task.enabled = true)
    (htr : task.trigger = .cron expression)
    (hprev : prev expression now = some p) :
    ((∃ pl, (task.id, pl) ∈ (triggerAllEnabledCronTasks prev orchOf wall now st).2.2) ↔
      (p > now - 65 * 1000 ∧ p ≤ now ∧
        (task.lastRun = none ∨ ∃ lr, task.lastRun = some lr ∧ lr < p))) ∧
    (∀ lr, task.lastRun = some lr → p ≤ lr →
      ¬ ∃ pl, (task.id, pl) ∈ (triggerAllEnabledCronTasks prev orchOf wall now st).2.2) := by
  have hinv := triggerAll_invocations prev orchOf wall now st
  have hdec : cronDecision prev now task =
      (if cronJobDue now p task.lastRun then
        some (task.id, { taskDefinition := some task, webhookPayload := some (.str "") })
      else none) := by
    simp [cronDecision, htr, hen, hprev]
  have hbool : cronJobDue now p task.lastRun = true ↔
      (p > now - 65 * 1000 ∧ p ≤ now ∧
        (task.lastRun = none ∨ ∃ lr, task.lastRun = some lr ∧ lr < p)) := by
    cases hlr : task.lastRun <;>
      simp [cronJobDue, hlr, Bool.and_eq_true, decide_eq_true_iff, and_assoc]
  have hiff : (∃ pl, (task.id, pl) ∈ (triggerAllEnabledCronTasks prev orchOf wall now st).2.2) ↔
      (p > now - 65 * 1000 ∧ p ≤ now ∧
        (task.lastRun = none ∨ ∃ lr, task.lastRun = some lr ∧ lr < p)) := by
    rw [hinv]
    constructor
    · rintro ⟨pl, hpl⟩
      rw [List.mem_filterMap] at hpl
      obtain ⟨t2, ht2mem, ht2dec⟩ := hpl
      have hid : task.id = t2.id := cronDecision_id prev now t2 task.id pl ht2dec
      have ht2 : t2 = task :=
        (List.inj_on_of_nodup_map hnodup) ht2mem hmem hid.symm
      subst ht2
      rw [hdec] at ht2dec
      by_cases hdue : cronJobDue now p t2.lastRun = true
      · exact hbool.mp hdue
      · rw [if_neg hdue] at ht2dec
        exact absurd ht2dec (by simp)
    · intro hdue
      refine ⟨{ taskDefinition := some task, webhookPayload := some (.str "") }, ?_⟩
      rw [List.mem_filterMap]
      refine ⟨task, hmem, ?_⟩
      rw [hdec, if_pos (hbool.mpr hdue)]
  refine ⟨hiff, ?_⟩
  intro lr hlr hple hex
  have h3 := (hiff.mp hex).2.2
  rcases h3 with h3 | ⟨lr2, hlr2, hlt⟩
  · rw [hlr] at h3
    exact Option.noConfusion h3
  · rw [hlr] at hlr2
    injection hlr2 with he
    omega

/-- Claim C2 witness: evaluated on a concrete store at `now` with previous
scheduled moment thirty seconds earlier and `lastRun` unset. -/
theorem c2_witness :
    ((∃ pl, (taskC2.id, pl) ∈
        (triggerAllEnabledCronTasks prevThirty orchOkFn 99 1000000 stC2).2.2) ↔
      ((970000 : Int) > 1000000 - 65 * 1000 ∧ (970000 : Int) ≤ 1000000 ∧
        (taskC2.lastRun = none ∨ ∃ lr, taskC2.lastRun = some lr ∧ lr < 970000))) ∧
    (∀ lr, taskC2.lastRun = some lr → (970000 : Int) ≤ lr →
      ¬ ∃ pl, (taskC2.id, pl) ∈
        (triggerAllEnabledCronTasks prevThirty orchOkFn 99 1000000 stC2).2.2) :=
  c2_cron_due_iff prevThirty orchOkFn 99 1000000 stC2 taskC2 "*/1 * * * *" 970000
    (by decide) (by decide) rfl rfl (by decide)

/-- Registry saves leave the task table untouched. -/
theorem getTaskS_saveWebhookRegistrationS (st : ManagerState) (e : WebhookRegistryEntry)
    (taskId : String) : getTaskS (saveWebhookRegistrationS st e) taskId = getTaskS st taskId := rfl

/-- Registry updates leave the task table untouched (lookup form). -/
theorem getTaskS_updateWebhookRegistrationS (st : ManagerState) (sid : String)
    (f : WebhookRegistryEntry → WebhookRegistryEntry) (taskId : String) :
    getTaskS (updateWebhookRegistrationS st sid f) taskId = getTaskS st taskId := by
  unfold getTaskS
  rw [updateWebhookRegistrationS_tasks]

/-- Task saves leave the registry untouched (lookup form). -/
theorem getWebhookRegistrationS_saveTaskS (st : ManagerState) (t : IngestionTaskDefinition)
    (sid : String) : getWebhookRegistrationS (saveTaskS st t) sid = getWebhookRegistrationS st sid := rfl

/-- Task lookup through a task update, in `Option.map` form. -/
theorem getTaskS_updateTaskS (st : ManagerState) (taskId : String)
    (f : IngestionTaskDefinition → IngestionTaskDefinition) :
    getTaskS (updateTaskS st taskId f) taskId = (getTaskS st taskId).map f := by
  unfold getTaskS updateTaskS
  cases h : mapGet st.tasks taskId
  · simp [h]
  · simp [h, mapGet_mapSet_self]

/-- Looking up a just-saved task under its own id. -/
theorem getTaskS_saveTaskS_self (st : ManagerState) (t : IngestionTaskDefinition)
    (k : String) (h : t.id = k) : getTaskS (saveTaskS st t) k = some t := by
  subst h
  exact mapGet_mapSet_self st.tasks t.id t

/-- Task lookup through a task save, in conditional form. -/
theorem getTaskS_saveTaskS (st : ManagerState) (t : IngestionTaskDefinition) (k : String) :
    getTaskS (saveTaskS st t) k = if t.id = k then some t else getTaskS st k := by
  by_cases h : t.id = k
  · subst h
    simp [getTaskS_saveTaskS_self st t t.id rfl]
  · unfold getTaskS saveTaskS
    simp [h, mapGet_mapSet_ne _ _ _ _ h]

/-- A failed `registerWebhook` leaves the state unchanged: every failure path
returns before the first write. -/
theorem registerWebhook_fail_state (freshSecret : String) (extReg : ExtRegResult)
    (st : ManagerState) (td : IngestionTaskDefinition) :
    (registerWebhook freshSecret extReg st td).1.success = true ∨
    (registerWebhook freshSecret extReg st td).2 = st := by
  unfold registerWebhook
  dsimp only
  split
  · right; rfl
  · split
    · left; rfl
    · split
      · split
        · right; rfl
        · split
          · right; rfl
          · left; rfl
      · right; rfl

/-- Claim C4 (amended): `ScheduleTask(T); GetTask(T.id)` returns a task equal
to `T` except for: `currentStatus` (Scheduled, or Failed with
`lastRunStatus` holding the failure when webhook registration fails); the id
when auto-generated; `lastRun` and `lastRunStatus` reset; `trigger.secret`
and `trigger.externalWebhookId` populated on webhook triggers; and — when
webhook registration creates a new registry entry — every field of that
entry (`sourceIdentifier`, `endpointId`, `secret`, `externalWebhookId`,
`registeredTasks`, `webhookFlag` and the three cursor tokens) additionally
copied onto the task. -/
theorem c4_roundtrip_amended (freshId freshSecret : String) (extReg : ExtRegResult)
    (st : ManagerState) (td : IngestionTaskDefinition)
    (taskId : String) (base : IngestionTaskDefinition)
    (hid : taskId = (if td.id ≠ "" then td.id else freshId))
    (hbase : base = { td with
                      id := taskId
                      currentStatus := some IngestionTaskStatus.scheduled
                      lastRun := none
                      lastRunStatus := none })
    (hfresh : getTaskS st taskId = none) :
    ((td.enabled = false ∨ td.trigger = .manual ∨ (∃ e, td.trigger = .cron e)) →
      getTaskS (scheduleTask freshId freshSecret extReg st td).2 taskId = some base) ∧
    (∀ w sid entry, td.enabled = true → td.trigger = .webhook w →
      getSourceIdentifier td.source.pluginType td.source.config = some sid → sid ≠ "" →
      getWebhookRegistrationS st sid = some entry →
      getTaskS (scheduleTask freshId freshSecret extReg st td).2 taskId =
        some { base with trigger := .webhook { w with
          externalWebhookId := some entry.externalWebhookId
          secret := some entry.secret } }) ∧
    (∀ w sid, td.enabled = true → td.trigger = .webhook w →
      getSourceIdentifier td.source.pluginType td.source.config = some sid → sid ≠ "" →
      getWebhookRegistrationS st sid = none →
      (td.source.pluginType = "git-crawler" ∨ td.source.pluginType = "googledrive-crawler") →
      jsTruthy w.credentials = true →
      extReg.success = true → jsTruthy extReg.externalId = true →
      getTaskS (scheduleTask freshId freshSecret extReg st td).2 taskId =
        some (applyEntrySpread base
          { w with
            externalWebhookId := some (extReg.externalId.getD "")
            secret := some freshSecret }
          { sourceIdentifier := sid
            endpointId := w.endpointId
            secret := freshSecret
            externalWebhookId := extReg.externalId.getD ""
            registeredTasks := [taskId]
            webhookFlag := true
            startPageToken := jsOrNone extReg.startpageToken
            nextPageToken := jsOrNone extReg.nextPageToken
            otherCrawlerSpecificTokens := jsOrNone extReg.otherCrawlerSpecificTokens })) ∧
    (∀ w, td.enabled = true → td.trigger = .webhook w →
      (registerWebhook freshSecret extReg (saveTaskS st base) base).1.success = false →
      getTaskS (scheduleTask freshId freshSecret extReg st td).2 taskId =
        some { base with
               currentStatus := some IngestionTaskStatus.failed
               lastRunStatus := some (registerWebhook freshSecret extReg (saveTaskS st base) base).1 }) := by
  subst hbase
  subst hid
  refine ⟨?_, ?_, ?_, ?_⟩
  · intro h
    rcases h with h | h | ⟨e, h⟩
    · simp only [scheduleTask, hfresh]
      simp [h, getTaskS_saveTaskS_self _ _ _ rfl]
    · by_cases he : td.enabled <;>
        · simp only [scheduleTask, hfresh]
          simp [h, he, getTaskS_saveTaskS_self _ _ _ rfl]
    · by_cases he : td.enabled <;>
        · simp only [scheduleTask, hfresh]
          simp [h, he, getTaskS_saveTaskS_self _ _ _ rfl]
  · intro w sid entry hen htrw hsid hsidne hentry
    have hJT : jsTruthy (some sid) = true := by simp [jsTruthy, hsidne]
    by_cases hc : entry.registeredTasks.contains (if td.id ≠ "" then td.id else freshId) = true
    · simp only [scheduleTask, hfresh]
      simp only [Option.isSome_none, Bool.false_eq_true, if_false, reduceIte, hen, htrw,
        if_true]
      simp only [registerWebhook, asWebhookTrigger, hsid, hJT, Bool.true_eq_false,
        reduceIte, Option.getD_some, getWebhookRegistrationS_saveTaskS, hentry]
      rw [if_pos hc, getTaskS_updateTaskS,
        getTaskS_saveTaskS_self st _ (if td.id ≠ "" then td.id else freshId) rfl]
      rfl
    · simp only [scheduleTask, hfresh]
      simp only [Option.isSome_none, Bool.false_eq_true, if_false, reduceIte, hen, htrw,
        if_true]
      simp only [registerWebhook, asWebhookTrigger, hsid, hJT, Bool.true_eq_false,
        reduceIte, Option.getD_some, getWebhookRegistrationS_saveTaskS, hentry]
      rw [if_neg hc, getTaskS_updateTaskS, getTaskS_updateWebhookRegistrationS,
        getTaskS_saveTaskS_self st _ (if td.id ≠ "" then td.id else freshId) rfl]
      rfl
  · intro w sid hen htrw hsid hsidne hnoentry hplug hcred hregs hregid
    have hJT : jsTruthy (some sid) = true := by simp [jsTruthy, hsidne]
    simp only [scheduleTask, hfresh]
    simp only [Option.isSome_none, Bool.false_eq_true, if_false, reduceIte, hen, htrw, if_true]
    simp only [registerWebhook, asWebhookTrigger, hsid, hJT, Bool.true_eq_false, reduceIte,
      Option.getD_some, getWebhookRegistrationS_saveTaskS, hnoentry]
    rw [if_pos hplug]
    simp only [hcred, hregs, hregid, Bool.and_self, Bool.true_eq_false, if_false, reduceIte]
    rw [getTaskS_updateTaskS, getTaskS_saveWebhookRegistrationS,
      getTaskS_saveTaskS_self st _ (if td.id ≠ "" then td.id else freshId) rfl]
    rfl
  · intro w hen htrw hfail
    simp only [hen, htrw] at hfail
    simp only [scheduleTask, hfresh]
    simp only [Option.isSome_none, Bool.false_eq_true, if_false, reduceIte, hen, htrw, if_true]
    simp only [hfail, if_true, reduceIte]
    rcases registerWebhook_fail_state freshSecret extReg
        (saveTaskS st { td with
          id := (if td.id ≠ "" then td.id else freshId)
          enabled := true
          trigger := .webhook w
          currentStatus := some IngestionTaskStatus.scheduled
          lastRun := none
          lastRunStatus := none })
        { td with
          id := (if td.id ≠ "" then td.id else freshId)
          enabled := true
          trigger := .webhook w
          currentStatus := some IngestionTaskStatus.scheduled
          lastRun := none
          lastRunStatus := none } with
      hok | hunch
    · rw [hfail] at hok
      exact absurd hok (by simp)
    · rw [hunch, getTaskS_updateTaskS,
        getTaskS_saveTaskS_self st _ (if td.id ≠ "" then td.id else freshId) rfl]
      rfl

/-- Claim C4 witness: the amended statement, new-registry-entry case, at a
concrete Drive webhook task: the stored task is the saved base task with the
updated trigger and the whole new registry entry spread onto it. -/
theorem c4_witness :
    getTaskS (scheduleTask "u" "s3" extRegC4 {} tdC4).2 "w1" =
      some (applyEntrySpread baseC4
        { whTrigGd with
          externalWebhookId := some "X1"
          secret := some "s3" }
        { sourceIdentifier := "F"
          endpointId := "/gd"
          secret := "s3"
          externalWebhookId := "X1"
          registeredTasks := ["w1"]
          webhookFlag := true
          startPageToken := some "42"
          nextPageToken := none
          otherCrawlerSpecificTokens := none }) :=
  (c4_roundtrip_amended "u" "s3" extRegC4 {} tdC4 "w1" baseC4 (by decide) rfl rfl).2.2.1
    whTrigGd "F" rfl rfl rfl (by decide) rfl (Or.inr rfl) (by decide) rfl (by decide)

/-- Claim C5 (amended): for a git-style dispatch where the registry entry's
secret is set and the provided `X-Hub-Signature-256` value, split at `=`,
has algorithm segment `sha256` but a second segment differing from the hex
HMAC-SHA256 of the body under that secret, verification fails with the
`Invalid webhook signature.` error, `triggerWebhookTask` returns status 401,
the state is unchanged, and no orchestrator run is invoked.  (The comparison
is a plain string equality on the second `split("=")` segment only: a value
of the form `sha256=<correct-hash>=junk` differs from `sha256=` + HMAC yet
still validates.) -/
theorem c5_git_signature_mismatch_amended
    (hmac : String → String → String) (parseUri : String → Option String)
    (orchOf : String → GSStatus) (wall : Int) (st : ManagerState)
    (endpointId : String) (headers : Headers) (body : BodyVal)
    (firstTask : IngestionTaskDefinition) (rest : List IngestionTaskDefinition)
    (entry : WebhookRegistryEntry) (sig repoName : String)
    (hmatch : tasksMatchingEndpoint st endpointId = firstTask :: rest)
    (hplug : firstTask.source.pluginType = "git-crawler")
    (htype : body.typeOk = true) (hparse : body.parseOk = true)
    (hrepo : body.repoFullName = some repoName) (hrepone : repoName ≠ "")
    (hentry : getWebhookRegistrationS st ("https://github.com/" ++ repoName) = some entry)
    (hsecret : entry.secret ≠ "")
    (hsig : headers.xHubSignature256 = some sig) (hsigne : sig ≠ "")
    (halg : (jsSplit sig '=').headD "" = "sha256")
    (hmismatch : (jsSplit sig '=')[1]? ≠ some (hmac entry.secret body.raw)) :
    triggerWebhookTask hmac parseUri orchOf wall st endpointId headers body =
      (⟨false, 401, "Invalid webhook signature.", none⟩, st, []) := by
  have hinitIsValid :
      (processWebhookRequest hmac parseUri "git-crawler" headers none body).isValid = true := by
    simp [processWebhookRequest, handleGitWebhook, htype, hparse, hrepo, jsTruthy, hrepone]
  have hextId :
      (processWebhookRequest hmac parseUri "git-crawler" headers none body).externalResourceId =
        some ("https://github.com/" ++ repoName) := by
    simp [processWebhookRequest, handleGitWebhook, htype, hparse, hrepo, jsTruthy, hrepone]
  have hne : ("https://github.com/" ++ repoName) ≠ "" := by
    intro h
    have hlen := congrArg String.length h
    rw [String.length_append] at hlen
    have h19 : ("https://github.com/").length = 19 := by decide
    rw [h19] at hlen
    simp at hlen
  have halg2 : (jsSplit sig '=').head?.getD "" = "sha256" := by
    simpa using halg
  have hfinal :
      processWebhookRequest hmac parseUri "git-crawler" headers (some entry.secret) body =
        { isValid := false, payload := none, externalResourceId := none, changeType := none,
          error := some "Invalid webhook signature." } := by
    simp [processWebhookRequest, handleGitWebhook, htype, hparse, jsTruthy, hsecret, hsig,
      hsigne, jsOr, halg2, hmismatch]
  simp [triggerWebhookTask, hmatch, hplug, hinitIsValid, hextId, hfinal, hentry, hne,
    jsTruthy, jsOrD]

/-- Claim C5 witness: the amended statement at a concrete git dispatch with
a wrong hash segment: a 401 with no orchestrator invocation and an unchanged
store. -/
theorem c5_witness :
    triggerWebhookTask hmacConst parseUriNone orchOkFn 99 stC5 "/gh" headersC5w bodyC5 =
      (⟨false, 401, "Invalid webhook signature.", none⟩, stC5, []) :=
  c5_git_signature_mismatch_amended hmacConst parseUriNone orchOkFn 99 stC5 "/gh"
    headersC5w bodyC5 taskC5 [] entryC5 "sha256=beef" "ex/r"
    (by decide) rfl rfl rfl rfl (by decide) (by decide) (by decide) rfl (by decide)
    (by decide) (by decide)

end IngestorSdk
